import Mathlib

/-
Verification of the Telegram relay service (src/app.py).

The service is a stateless Flask app with three POST handlers
(sendMessage, sendPhoto, sendDocument) and one forwarding helper
(send_telegram_request).  We embed the request-scoped data model:

 * JSON values (the parsed request body and provider payloads);
 * the body a handler sees as an optional association list of string
   keys: request.json (get_json with silent=False) aborts with Flask's
   default BadRequest or UnsupportedMediaType response before the
   handler body runs when the body is absent, unparseable or not JSON
   at all, so the handler only ever receives a successfully parsed
   value (none models the parsed JSON null, where request.json is
   None); the route-level functions model that pre-handler abort;
 * jsonify, which re-serializes the value it is given with Flask's
   default sort_keys behavior: every JSON object's key list is sorted
   (recursively) in code-point order, as json.dumps sort_keys does;
 * the network outcome of the single outbound POST, as an oracle value:
   either a transport failure with a reason string, or an HTTP response
   with a status code, raw body text, and the result of parsing that
   text as JSON (requests raises a RequestException subclass, carrying
   no response, when response.json fails to parse);
 * the forwarder, which normalizes every outcome into either a success
   JSON value or an error with optional status code and message, as the
   Python code does via raise_for_status and its except clause;
 * the three handlers, each factored into a pure validation step that
   either replies early or dispatches to the forwarder, followed by the
   single forwarder call.  The second component of a handler result
   counts the outbound network calls that were made.
-/

/-- A JSON value: the payloads the relay moves around. -/
inductive Json where
  | null : Json
  | bool (b : Bool) : Json
  | num (n : Int) : Json
  | str (s : String) : Json
  | arr (elems : List Json) : Json
  | obj (fields : List (String × Json)) : Json
deriving Repr

/-- Python truthiness of a JSON value (used by `if not data` and
`if not bot_token` in app.py). -/
def truthy : Json → Bool
  | .null => false
  | .bool b => b
  | .num n => n != 0
  | .str s => s != ""
  | .arr elems => !elems.isEmpty
  | .obj fields => !fields.isEmpty

/-- Python truthiness of an optional JSON value (None is falsy). -/
def pyTruthyOpt : Option Json → Bool
  | none => false
  | some v => truthy v

/-- First value bound to a key in a parsed JSON object
(Python dict lookup; dict keys are unique). -/
def getKey : List (String × Json) → String → Option Json
  | [], _ => none
  | (k, v) :: rest, key => if k = key then some v else getKey rest key

/-- Remove a key from a parsed JSON object, leaving every other field
unchanged (the effect of dict.pop on the dictionary). -/
def removeKey : List (String × Json) → String → List (String × Json)
  | [], _ => []
  | (k, v) :: rest, key =>
      if k = key then removeKey rest key else (k, v) :: removeKey rest key

/-- Code-point lexicographic order on character lists, the order in
which Python's sorted ranks strings (and json.dumps sorts keys). -/
def charListLe : List Char → List Char → Bool
  | [], _ => true
  | _ :: _, [] => false
  | c :: cs, d :: ds =>
      if c.toNat < d.toNat then true
      else if d.toNat < c.toNat then false
      else charListLe cs ds

/-- Code-point lexicographic order on strings. -/
def strLe (a b : String) : Bool := charListLe a.data b.data

/-- Insert a field into a key-sorted field list, keeping it sorted. -/
def insertSorted (p : String × Json) :
    List (String × Json) → List (String × Json)
  | [] => [p]
  | q :: rest =>
      if strLe p.1 q.1 then p :: q :: rest else q :: insertSorted p rest

/-- Sort a field list by key (insertion sort; dict keys are unique, so
the order among equal keys never matters). -/
def sortFields : List (String × Json) → List (String × Json)
  | [] => []
  | p :: rest => insertSorted p (sortFields rest)

mutual

/-- The value transformation jsonify applies when re-serializing a
payload: Flask's json provider calls json.dumps with sort_keys enabled
by default, so every JSON object's key list, at every depth, comes out
sorted in code-point order.  Scalars are unchanged and arrays keep
their element order. -/
def jsonifySort : Json → Json
  | .null => .null
  | .bool b => .bool b
  | .num n => .num n
  | .str s => .str s
  | .arr elems => .arr (jsonifySortList elems)
  | .obj fields => .obj (sortFields (jsonifySortFields fields))
termination_by structural j => j

/-- jsonifySort mapped over array elements. -/
def jsonifySortList : List Json → List Json
  | [] => []
  | v :: rest => jsonifySort v :: jsonifySortList rest
termination_by structural l => l

/-- jsonifySort mapped over object field values. -/
def jsonifySortFields : List (String × Json) → List (String × Json)
  | [] => []
  | (k, v) :: rest => (k, jsonifySort v) :: jsonifySortFields rest
termination_by structural l => l

end

/-- The JSON error envelope jsonify produces from a message string.
Its single key means jsonify's key sorting leaves it unchanged:
jsonifySort (errObj msg) = errObj msg definitionally. -/
def errObj (msg : String) : Json :=
  Json.obj [("error", Json.str msg)]

/-- The fixed no-credential message of app.py. -/
def noTokenMsg : String :=
  "No bot token provided and TELEGRAM_BOT_TOKEN environment variable not set"

/-- Message raised for a 4XX/5XX provider response
(f-string at app.py line 62). -/
def telegramApiErrorMsg (statusCode : Nat) (errorDetail : String) : String :=
  "Telegram API error (" ++ toString statusCode ++ "): " ++ errorDetail

/-- Message raised for a transport-level failure with no response
(f-string at app.py line 63). -/
def transportFailMsg (reason : String) : String :=
  "Request to Telegram API failed: " ++ reason

/-- Outcome of the single outbound POST, seen from the forwarder:
either a transport failure (connection error, timeout) carrying the
exception text, or an HTTP response carrying its status code, its raw
body text, and the result of parsing that text as JSON. -/
inductive ProviderHttp where
  | transportFail (reason : String) : ProviderHttp
  | httpResponse (status : Nat) (text : String)
      (parsed : Except String Json) : ProviderHttp

/-- Result of send_telegram_request: a success JSON value, or an error
with an optional provider status code and a message. -/
inductive ProviderResult where
  | success (value : Json) : ProviderResult
  | error (statusCode : Option Nat) (message : String) : ProviderResult

/-- send_telegram_request (app.py lines 33-63).  raise_for_status raises
for statuses in [400, 600); its HTTPError carries the response, so the
handler re-raises with the status and raw body text.  Transport errors
and JSON-decode failures of a success response carry no response, so
they are re-raised with the generic failure message. -/
def send_telegram_request (method : String) (token : Json)
    (params : List (String × Json)) (outcome : ProviderHttp) :
    ProviderResult :=
  match method, token, params, outcome with
  | _, _, _, .transportFail reason =>
      .error none (transportFailMsg reason)
  | _, _, _, .httpResponse status text parsed =>
      if 400 ≤ status ∧ status < 600 then
        .error (some status) (telegramApiErrorMsg status text)
      else
        match parsed with
        | .ok value => .success value
        | .error reason => .error none (transportFailMsg reason)

/-- What a handler decides before any network traffic: reply at once
with a status and JSON body, or dispatch one forwarder call with a
method name, credential and parameters. -/
inductive Step where
  | reply (status : Nat) (body : Json) : Step
  | dispatch (method : String) (token : Json)
      (params : List (String × Json)) : Step

/-- Credential resolution: data.pop with DEFAULT_BOT_TOKEN as default
(app.py line 98 and its clones). -/
def resolveToken (d : List (String × Json)) (defaultToken : Option String) :
    Option Json :=
  match getKey d "bot_token" with
  | some v => some v
  | none => defaultToken.map Json.str

/-- Validation and credential resolution of send_message
(app.py lines 85-102), up to the forwarder call.  The none input is
request.json being None (the parsed JSON null); Flask aborts before
the handler on absent, unparseable or non-JSON bodies (modelled by
the route-level function below). -/
def send_message_step (defaultToken : Option String) :
    Option (List (String × Json)) → Step
  | none => .reply 400 (errObj "No data provided")
  | some d =>
      if d.isEmpty then .reply 400 (errObj "No data provided")
      else if (getKey d "chat_id").isNone then
        .reply 400 (errObj "Missing required field: chat_id")
      else if (getKey d "text").isNone then
        .reply 400 (errObj "Missing required field: text")
      else
        match resolveToken d defaultToken with
        | none => .reply 400 (errObj noTokenMsg)
        | some bot_token =>
            if truthy bot_token then
              .dispatch "sendMessage" bot_token (removeKey d "bot_token")
            else .reply 400 (errObj noTokenMsg)

/-- Validation and credential resolution of send_photo
(app.py lines 125-142), up to the forwarder call.  The none input is
request.json being None (the parsed JSON null); Flask aborts before
the handler on absent, unparseable or non-JSON bodies (modelled by
the route-level function below). -/
def send_photo_step (defaultToken : Option String) :
    Option (List (String × Json)) → Step
  | none => .reply 400 (errObj "No data provided")
  | some d =>
      if d.isEmpty then .reply 400 (errObj "No data provided")
      else if (getKey d "chat_id").isNone then
        .reply 400 (errObj "Missing required field: chat_id")
      else if (getKey d "photo").isNone then
        .reply 400 (errObj "Missing required field: photo")
      else
        match resolveToken d defaultToken with
        | none => .reply 400 (errObj noTokenMsg)
        | some bot_token =>
            if truthy bot_token then
              .dispatch "sendPhoto" bot_token (removeKey d "bot_token")
            else .reply 400 (errObj noTokenMsg)

/-- Validation and credential resolution of send_document
(app.py lines 165-182), up to the forwarder call.  The none input is
request.json being None (the parsed JSON null); Flask aborts before
the handler on absent, unparseable or non-JSON bodies (modelled by
the route-level function below). -/
def send_document_step (defaultToken : Option String) :
    Option (List (String × Json)) → Step
  | none => .reply 400 (errObj "No data provided")
  | some d =>
      if d.isEmpty then .reply 400 (errObj "No data provided")
      else if (getKey d "chat_id").isNone then
        .reply 400 (errObj "Missing required field: chat_id")
      else if (getKey d "document").isNone then
        .reply 400 (errObj "Missing required field: document")
      else
        match resolveToken d defaultToken with
        | none => .reply 400 (errObj noTokenMsg)
        | some bot_token =>
            if truthy bot_token then
              .dispatch "sendDocument" bot_token (removeKey d "bot_token")
            else .reply 400 (errObj noTokenMsg)

/-- Run a handler decision: an early reply makes no outbound call; a
dispatch makes exactly one forwarder call and maps its outcome to the
HTTP response (the try/except at app.py lines 104-109 and its clones).
A provider success value passes through jsonify, whose default key
sorting is jsonifySort; the error envelopes are single-key objects, on
which jsonify's sorting is the identity, so they appear directly.
Returns the (status, body) response and the outbound call count. -/
def runStep (s : Step) (outcome : ProviderHttp) : (Nat × Json) × Nat :=
  match s with
  | .reply status body => ((status, body), 0)
  | .dispatch method token params =>
      match send_telegram_request method token params outcome with
      | .success value => ((200, jsonifySort value), 1)
      | .error _ msg => ((500, errObj msg), 1)

/-- The full send_message handler (app.py lines 72-109), as a function
of the default token, the parsed body, and the network outcome. -/
def send_message (defaultToken : Option String)
    (data : Option (List (String × Json))) (outcome : ProviderHttp) :
    (Nat × Json) × Nat :=
  runStep (send_message_step defaultToken data) outcome

/-- The full send_photo handler (app.py lines 112-149). -/
def send_photo (defaultToken : Option String)
    (data : Option (List (String × Json))) (outcome : ProviderHttp) :
    (Nat × Json) × Nat :=
  runStep (send_photo_step defaultToken data) outcome

/-- The full send_document handler (app.py lines 152-189). -/
def send_document (defaultToken : Option String)
    (data : Option (List (String × Json))) (outcome : ProviderHttp) :
    (Nat × Json) × Nat :=
  runStep (send_document_step defaultToken data) outcome

/-- The body of a route-level response: either a JSON body produced by
the handler through jsonify, or Flask's built-in error response for an
abort raised before the handler body ran (an HTML page by default; the
app registers JSON error handlers only for 404 and 500, so a 400 or
415 abort is never the handler's envelope). -/
inductive RouteBody where
  | jsonBody (v : Json) : RouteBody
  | defaultErrorPage (status : Nat) : RouteBody

/-- How Flask classifies an incoming POST body before a handler body
runs.  request.json is get_json with silent=False: a request whose
content type is not JSON is aborted with 415 UnsupportedMediaType, a
JSON request whose body fails to parse (an absent body included, since
the empty string is not JSON) is aborted with 400 BadRequest, and
otherwise the handler receives the parsed value - none when the body
is the JSON null (request.json is None), an association list for an
object body. -/
inductive BodyParse where
  | badContentType : BodyParse
  | parseError : BodyParse
  | parsedOk (value : Option (List (String × Json))) : BodyParse

/-- The full sendMessage route including Flask's body parsing: an
aborted parse returns Flask's default error response and the handler
never runs (zero outbound calls); otherwise the handler runs on the
parsed value. -/
def send_message_route (defaultToken : Option String) (b : BodyParse)
    (outcome : ProviderHttp) : (Nat × RouteBody) × Nat :=
  match b with
  | .badContentType => ((415, .defaultErrorPage 415), 0)
  | .parseError => ((400, .defaultErrorPage 400), 0)
  | .parsedOk data =>
      match send_message defaultToken data outcome with
      | ((status, body), calls) => ((status, .jsonBody body), calls)

/-- The full sendPhoto route including Flask's body parsing. -/
def send_photo_route (defaultToken : Option String) (b : BodyParse)
    (outcome : ProviderHttp) : (Nat × RouteBody) × Nat :=
  match b with
  | .badContentType => ((415, .defaultErrorPage 415), 0)
  | .parseError => ((400, .defaultErrorPage 400), 0)
  | .parsedOk data =>
      match send_photo defaultToken data outcome with
      | ((status, body), calls) => ((status, .jsonBody body), calls)

/-- The full sendDocument route including Flask's body parsing. -/
def send_document_route (defaultToken : Option String) (b : BodyParse)
    (outcome : ProviderHttp) : (Nat × RouteBody) × Nat :=
  match b with
  | .badContentType => ((415, .defaultErrorPage 415), 0)
  | .parseError => ((400, .defaultErrorPage 400), 0)
  | .parsedOk data =>
      match send_document defaultToken data outcome with
      | ((status, body), calls) => ((status, .jsonBody body), calls)

/-! Helper lemmas shared by the claim theorems. -/

/-- After removal, the removed key is absent. -/
theorem getKey_removeKey_self (d : List (String × Json)) (key : String) :
    getKey (removeKey d key) key = none := by
  induction d with
  | nil => rfl
  | cons p rest ih =>
      obtain ⟨k, v⟩ := p
      by_cases h : k = key
      · simpa [removeKey, h] using ih
      · simpa [removeKey, getKey, h] using ih

/-- Removal of one key leaves every other key bound as before. -/
theorem getKey_removeKey_ne (d : List (String × Json)) (key k : String)
    (h : k ≠ key) : getKey (removeKey d key) k = getKey d k := by
  induction d with
  | nil => rfl
  | cons p rest ih =>
      obtain ⟨k0, v⟩ := p
      by_cases h0 : k0 = key
      · subst h0
        simp [removeKey, getKey, Ne.symm h, ih]
      · simp [removeKey, getKey, h0, h, Ne.symm h, ih]

/-- A dispatched forwarder call whose response status is in [400, 600)
yields a 500 with the status-and-body message; one outbound call. -/
theorem runStep_httpError (m : String) (tok : Json)
    (ps : List (String × Json)) (st : Nat) (B : String)
    (p : Except String Json) (h1 : 400 ≤ st) (h2 : st < 600) :
    runStep (.dispatch m tok ps) (.httpResponse st B p)
      = ((500, errObj (telegramApiErrorMsg st B)), 1) := by
  simp [runStep, send_telegram_request, h1, h2]

/-- A dispatched forwarder call whose response status is not in
[400, 600) and whose body parses as R yields a 200 with jsonify's
re-serialization of R. -/
theorem runStep_ok (m : String) (tok : Json) (ps : List (String × Json))
    (st : Nat) (B : String) (R : Json) (h : ¬(400 ≤ st ∧ st < 600)) :
    runStep (.dispatch m tok ps) (.httpResponse st B (.ok R))
      = ((200, jsonifySort R), 1) := by
  simp [runStep, send_telegram_request, h]

/-- A dispatched forwarder call whose response status is not in
[400, 600) and whose body fails to parse yields a 500 with the
transport-failure message. -/
theorem runStep_parseFail (m : String) (tok : Json)
    (ps : List (String × Json)) (st : Nat) (B e : String)
    (h : ¬(400 ≤ st ∧ st < 600)) :
    runStep (.dispatch m tok ps) (.httpResponse st B (.error e))
      = ((500, errObj (transportFailMsg e)), 1) := by
  simp [runStep, send_telegram_request, h]

/-- A dispatched forwarder call that fails at transport level yields a
500 with the transport-failure message; one outbound call. -/
theorem runStep_transport (m : String) (tok : Json)
    (ps : List (String × Json)) (r : String) :
    runStep (.dispatch m tok ps) (.transportFail r)
      = ((500, errObj (transportFailMsg r)), 1) := rfl

/-- When validation passes and the resolved credential is truthy,
send_message dispatches it with the body minus the bot_token key. -/
theorem send_message_step_eq_dispatch (df : Option String)
    (d : List (String × Json)) (v : Json)
    (hd : d.isEmpty = false) (hchat : (getKey d "chat_id").isNone = false)
    (htext : (getKey d "text").isNone = false)
    (hr : resolveToken d df = some v) (hv : truthy v = true) :
    send_message_step df (some d)
      = .dispatch "sendMessage" v (removeKey d "bot_token") := by
  simp [send_message_step, hd, hchat, htext, hr, hv]

/-- When validation passes and the resolved credential is truthy,
send_photo dispatches it with the body minus the bot_token key. -/
theorem send_photo_step_eq_dispatch (df : Option String)
    (d : List (String × Json)) (v : Json)
    (hd : d.isEmpty = false) (hchat : (getKey d "chat_id").isNone = false)
    (hphoto : (getKey d "photo").isNone = false)
    (hr : resolveToken d df = some v) (hv : truthy v = true) :
    send_photo_step df (some d)
      = .dispatch "sendPhoto" v (removeKey d "bot_token") := by
  simp [send_photo_step, hd, hchat, hphoto, hr, hv]

/-- When validation passes and the resolved credential is truthy,
send_document dispatches it with the body minus the bot_token key. -/
theorem send_document_step_eq_dispatch (df : Option String)
    (d : List (String × Json)) (v : Json)
    (hd : d.isEmpty = false) (hchat : (getKey d "chat_id").isNone = false)
    (hdoc : (getKey d "document").isNone = false)
    (hr : resolveToken d df = some v) (hv : truthy v = true) :
    send_document_step df (some d)
      = .dispatch "sendDocument" v (removeKey d "bot_token") := by
  simp [send_document_step, hd, hchat, hdoc, hr, hv]

/-- A truthy resolved credential exists as a value. -/
theorem resolveToken_of_truthy (d : List (String × Json))
    (df : Option String) (h : pyTruthyOpt (resolveToken d df) = true) :
    ∃ v, resolveToken d df = some v ∧ truthy v = true := by
  cases hr : resolveToken d df with
  | none => rw [hr] at h; simp [pyTruthyOpt] at h
  | some v => rw [hr] at h; exact ⟨v, rfl, h⟩


/-! The claim theorems. -/

/-- Claim C1: for every send operation, if the provider responds with an
HTTP status in the range raise_for_status rejects (400 to 599, e.g. 400)
and body text B, the handler responds 500 with the JSON error envelope
whose message is "Telegram API error (<status>): <B>", embedding both
the status code and B. -/
theorem C1_provider_error (df : Option String) (d : List (String × Json))
    (st : Nat) (B : String) (p : Except String Json)
    (hd : d.isEmpty = false)
    (hchat : (getKey d "chat_id").isNone = false)
    (htok : pyTruthyOpt (resolveToken d df) = true)
    (hst : 400 ≤ st) (hst2 : st < 600) :
    ((getKey d "text").isNone = false →
      send_message df (some d) (.httpResponse st B p)
        = ((500, errObj (telegramApiErrorMsg st B)), 1)) ∧
    ((getKey d "photo").isNone = false →
      send_photo df (some d) (.httpResponse st B p)
        = ((500, errObj (telegramApiErrorMsg st B)), 1)) ∧
    ((getKey d "document").isNone = false →
      send_document df (some d) (.httpResponse st B p)
        = ((500, errObj (telegramApiErrorMsg st B)), 1)) := by
  obtain ⟨v, hr, hv⟩ := resolveToken_of_truthy d df htok
  refine ⟨fun h1 => ?_, fun h2 => ?_, fun h3 => ?_⟩
  · simp only [send_message]
    rw [send_message_step_eq_dispatch df d v hd hchat h1 hr hv]
    exact runStep_httpError _ _ _ _ _ _ hst hst2
  · simp only [send_photo]
    rw [send_photo_step_eq_dispatch df d v hd hchat h2 hr hv]
    exact runStep_httpError _ _ _ _ _ _ hst hst2
  · simp only [send_document]
    rw [send_document_step_eq_dispatch df d v hd hchat h3 hr hv]
    exact runStep_httpError _ _ _ _ _ _ hst hst2

/-- Witness for C1 at the spec's own example: provider status 400 with
body "Bad Request: chat not found" yields a 500 whose message embeds
both, in the exact documented form. -/
theorem C1_witness :
    send_message none
      (some [("chat_id", Json.str "1"), ("text", Json.str "hi"),
        ("bot_token", Json.str "T")])
      (.httpResponse 400 "Bad Request: chat not found" (.error "x"))
      = ((500,
          errObj "Telegram API error (400): Bad Request: chat not found"),
         1) :=
  (C1_provider_error none
    [("chat_id", Json.str "1"), ("text", Json.str "hi"),
      ("bot_token", Json.str "T")]
    400 "Bad Request: chat not found" (.error "x")
    rfl rfl rfl (by norm_num) (by norm_num)).1 rfl

/-- Claim C2: for every send operation, if the provider returns a
success-range status but its body fails to parse as JSON, the forwarder
produces an error with no status code (a transport-level failure, as
requests raises a RequestException subclass carrying no response), and
the handler responds 500 with that message in the error envelope; the
parse failure never escapes as an uncaught fault. -/
theorem C2_parse_failure (df : Option String) (d : List (String × Json))
    (st : Nat) (B emsg : String)
    (hd : d.isEmpty = false)
    (hchat : (getKey d "chat_id").isNone = false)
    (htok : pyTruthyOpt (resolveToken d df) = true)
    (hst : 200 ≤ st) (hst2 : st < 300) :
    (∀ method token params,
      send_telegram_request method token params
          (.httpResponse st B (.error emsg))
        = .error none (transportFailMsg emsg)) ∧
    ((getKey d "text").isNone = false →
      send_message df (some d) (.httpResponse st B (.error emsg))
        = ((500, errObj (transportFailMsg emsg)), 1)) ∧
    ((getKey d "photo").isNone = false →
      send_photo df (some d) (.httpResponse st B (.error emsg))
        = ((500, errObj (transportFailMsg emsg)), 1)) ∧
    ((getKey d "document").isNone = false →
      send_document df (some d) (.httpResponse st B (.error emsg))
        = ((500, errObj (transportFailMsg emsg)), 1)) := by
  have hns : ¬(400 ≤ st ∧ st < 600) := by omega
  obtain ⟨v, hr, hv⟩ := resolveToken_of_truthy d df htok
  refine ⟨fun m t ps => ?_, fun h1 => ?_, fun h2 => ?_, fun h3 => ?_⟩
  · simp [send_telegram_request, hns]
  · simp only [send_message]
    rw [send_message_step_eq_dispatch df d v hd hchat h1 hr hv]
    exact runStep_parseFail _ _ _ _ _ _ hns
  · simp only [send_photo]
    rw [send_photo_step_eq_dispatch df d v hd hchat h2 hr hv]
    exact runStep_parseFail _ _ _ _ _ _ hns
  · simp only [send_document]
    rw [send_document_step_eq_dispatch df d v hd hchat h3 hr hv]
    exact runStep_parseFail _ _ _ _ _ _ hns

/-- Witness for C2: a 200 response with an unparseable body yields a 500
whose message is the wrapped decode-failure text. -/
theorem C2_witness :
    send_message (some "E")
      (some [("chat_id", Json.str "1"), ("text", Json.str "hi")])
      (.httpResponse 200 "garbage" (.error "Expecting value: line 1"))
      = ((500, errObj (transportFailMsg "Expecting value: line 1")), 1) :=
  (C2_parse_failure (some "E")
    [("chat_id", Json.str "1"), ("text", Json.str "hi")]
    200 "garbage" "Expecting value: line 1"
    rfl rfl rfl (by norm_num) (by norm_num)).2.1 rfl

/-- Claim C3: for every send operation, a validated body carrying a
usable bot_token leads to a dispatch with exactly that credential, and
the parameters are the body with the bot_token key removed and every
other key bound as before. -/
theorem C3_credential_extraction (df : Option String)
    (d : List (String × Json)) (v : Json)
    (hd : d.isEmpty = false)
    (hchat : (getKey d "chat_id").isNone = false)
    (hbt : getKey d "bot_token" = some v) (hv : truthy v = true) :
    getKey (removeKey d "bot_token") "bot_token" = none ∧
    (∀ k, k ≠ "bot_token" →
      getKey (removeKey d "bot_token") k = getKey d k) ∧
    ((getKey d "text").isNone = false →
      send_message_step df (some d)
        = .dispatch "sendMessage" v (removeKey d "bot_token")) ∧
    ((getKey d "photo").isNone = false →
      send_photo_step df (some d)
        = .dispatch "sendPhoto" v (removeKey d "bot_token")) ∧
    ((getKey d "document").isNone = false →
      send_document_step df (some d)
        = .dispatch "sendDocument" v (removeKey d "bot_token")) := by
  have hr : resolveToken d df = some v := by simp [resolveToken, hbt]
  exact ⟨getKey_removeKey_self d _,
    fun k hk => getKey_removeKey_ne d _ k hk,
    fun h1 => send_message_step_eq_dispatch df d v hd hchat h1 hr hv,
    fun h2 => send_photo_step_eq_dispatch df d v hd hchat h2 hr hv,
    fun h3 => send_document_step_eq_dispatch df d v hd hchat h3 hr hv⟩

/-- Witness for C3: a concrete sendMessage body with a bot_token
dispatches that token, the forwarded parameters being the body without
the bot_token field. -/
theorem C3_witness :
    send_message_step none
      (some [("chat_id", Json.str "1"), ("text", Json.str "hi"),
        ("bot_token", Json.str "T")])
      = Step.dispatch "sendMessage" (Json.str "T")
          [("chat_id", Json.str "1"), ("text", Json.str "hi")] :=
  (C3_credential_extraction none
    [("chat_id", Json.str "1"), ("text", Json.str "hi"),
      ("bot_token", Json.str "T")]
    (Json.str "T") rfl rfl rfl rfl).2.2.1 rfl

/-- Claim C4: for each send operation, a non-empty parsed body missing a
required field gets a 400 naming exactly the first missing field in
declared order: chat_id is reported whenever it is missing, and the
operation-specific field (text, photo, document) only when chat_id is
present. -/
theorem C4_first_missing_field (df : Option String)
    (outcome : ProviderHttp) (d : List (String × Json))
    (hd : d.isEmpty = false) :
    ((getKey d "chat_id").isNone = true →
      send_message df (some d) outcome
          = ((400, errObj "Missing required field: chat_id"), 0) ∧
      send_photo df (some d) outcome
          = ((400, errObj "Missing required field: chat_id"), 0) ∧
      send_document df (some d) outcome
          = ((400, errObj "Missing required field: chat_id"), 0)) ∧
    ((getKey d "chat_id").isNone = false →
      (((getKey d "text").isNone = true →
        send_message df (some d) outcome
          = ((400, errObj "Missing required field: text"), 0)) ∧
       ((getKey d "photo").isNone = true →
        send_photo df (some d) outcome
          = ((400, errObj "Missing required field: photo"), 0)) ∧
       ((getKey d "document").isNone = true →
        send_document df (some d) outcome
          = ((400, errObj "Missing required field: document"), 0)))) := by
  constructor
  · intro hc
    refine ⟨?_, ?_, ?_⟩ <;>
      simp [send_message, send_photo, send_document, send_message_step,
        send_photo_step, send_document_step, runStep, hd, hc]
  · intro hc
    refine ⟨fun ht => ?_, fun hp => ?_, fun hdoc => ?_⟩
    · simp [send_message, send_message_step, runStep, hd, hc, ht]
    · simp [send_photo, send_photo_step, runStep, hd, hc, hp]
    · simp [send_document, send_document_step, runStep, hd, hc, hdoc]

/-- Witness for C4: chat_id is reported first when absent (even though
text is also absent), and the operation field is reported when chat_id
is present. -/
theorem C4_witness :
    send_message none (some [("text", Json.str "x")]) (.transportFail "r")
      = ((400, errObj "Missing required field: chat_id"), 0) ∧
    send_photo none (some [("chat_id", Json.str "1")]) (.transportFail "r")
      = ((400, errObj "Missing required field: photo"), 0) ∧
    send_document none (some [("chat_id", Json.str "1")])
        (.transportFail "r")
      = ((400, errObj "Missing required field: document"), 0) :=
  ⟨((C4_first_missing_field none (.transportFail "r")
      [("text", Json.str "x")] rfl).1 rfl).1,
   ((C4_first_missing_field none (.transportFail "r")
      [("chat_id", Json.str "1")] rfl).2 rfl).2.1 rfl,
   ((C4_first_missing_field none (.transportFail "r")
      [("chat_id", Json.str "1")] rfl).2 rfl).2.2 rfl⟩

/-- Claim C5 amended: for every send operation, a provider response
with a success-range status whose body parses as JSON value R is
relayed as a 200 whose body is jsonify's re-serialization of R: R with
every object's key list sorted (Flask's default key sorting).  The
payload is preserved only up to that recursive key reordering, not
byte-for-byte; a payload whose object keys are already sorted comes
back exactly.  One outbound call is made. -/
theorem C5_success_passthrough (df : Option String)
    (d : List (String × Json)) (st : Nat) (B : String) (R : Json)
    (hd : d.isEmpty = false)
    (hchat : (getKey d "chat_id").isNone = false)
    (htok : pyTruthyOpt (resolveToken d df) = true)
    (hst : 200 ≤ st) (hst2 : st < 300) :
    ((getKey d "text").isNone = false →
      send_message df (some d) (.httpResponse st B (.ok R))
        = ((200, jsonifySort R), 1)) ∧
    ((getKey d "photo").isNone = false →
      send_photo df (some d) (.httpResponse st B (.ok R))
        = ((200, jsonifySort R), 1)) ∧
    ((getKey d "document").isNone = false →
      send_document df (some d) (.httpResponse st B (.ok R))
        = ((200, jsonifySort R), 1)) := by
  have hns : ¬(400 ≤ st ∧ st < 600) := by omega
  obtain ⟨v, hr, hv⟩ := resolveToken_of_truthy d df htok
  refine ⟨fun h1 => ?_, fun h2 => ?_, fun h3 => ?_⟩
  · simp only [send_message]
    rw [send_message_step_eq_dispatch df d v hd hchat h1 hr hv]
    exact runStep_ok _ _ _ _ _ _ hns
  · simp only [send_photo]
    rw [send_photo_step_eq_dispatch df d v hd hchat h2 hr hv]
    exact runStep_ok _ _ _ _ _ _ hns
  · simp only [send_document]
    rw [send_document_step_eq_dispatch df d v hd hchat h3 hr hv]
    exact runStep_ok _ _ _ _ _ _ hns

/-- Witness for the amended C5 at the spec's example payload, whose
keys are already sorted: the 200 body equals the provider value
exactly. -/
theorem C5_witness :
    send_message (some "E")
      (some [("chat_id", Json.str "1"), ("text", Json.str "hi")])
      (.httpResponse 200 "raw"
        (.ok (Json.obj [("ok", Json.bool true), ("result", Json.obj [])])))
      = ((200, Json.obj [("ok", Json.bool true), ("result", Json.obj [])]),
         1) :=
  (C5_success_passthrough (some "E")
    [("chat_id", Json.str "1"), ("text", Json.str "hi")]
    200 "raw" (Json.obj [("ok", Json.bool true), ("result", Json.obj [])])
    rfl rfl rfl (by norm_num) (by norm_num)).1 rfl

/-- Counterexample to C5 as stated: jsonify re-serializes a successful
provider payload with its object keys sorted, so a payload whose keys
arrive out of order is mutated - the relayed 200 body differs from the
provider value R. -/
theorem C5_counterexample :
    send_message (some "E")
      (some [("chat_id", Json.str "1"), ("text", Json.str "hi")])
      (.httpResponse 200 "raw"
        (.ok (Json.obj [("b", Json.num 1), ("a", Json.num 2)])))
      = ((200, Json.obj [("a", Json.num 2), ("b", Json.num 1)]), 1) ∧
    Json.obj [("a", Json.num 2), ("b", Json.num 1)]
      ≠ Json.obj [("b", Json.num 1), ("a", Json.num 2)] := by
  refine ⟨rfl, fun h => ?_⟩
  injection h with hfs
  injection hfs with hp hrest
  injection hp with hk hv
  exact absurd hk (by decide)

/-- Claim C6 amended: for each send operation, a body that parses but
yields no data - the empty JSON object, or the JSON null (request.json
being None) - gets a 400 with the envelope message "No data provided"
and no outbound call.  An unparseable or absent body never reaches the
handler: request.json aborts first with Flask's default 400 BadRequest
response (or 415 UnsupportedMediaType for a non-JSON content type),
which is not the handler's JSON envelope. -/
theorem C6_no_data (df : Option String) (outcome : ProviderHttp) :
    (send_message_route df (.parsedOk none) outcome
        = ((400, .jsonBody (errObj "No data provided")), 0) ∧
      send_message_route df (.parsedOk (some [])) outcome
        = ((400, .jsonBody (errObj "No data provided")), 0) ∧
      send_photo_route df (.parsedOk none) outcome
        = ((400, .jsonBody (errObj "No data provided")), 0) ∧
      send_photo_route df (.parsedOk (some [])) outcome
        = ((400, .jsonBody (errObj "No data provided")), 0) ∧
      send_document_route df (.parsedOk none) outcome
        = ((400, .jsonBody (errObj "No data provided")), 0) ∧
      send_document_route df (.parsedOk (some [])) outcome
        = ((400, .jsonBody (errObj "No data provided")), 0)) ∧
    (send_message_route df .parseError outcome
        = ((400, .defaultErrorPage 400), 0) ∧
      send_message_route df .badContentType outcome
        = ((415, .defaultErrorPage 415), 0) ∧
      send_photo_route df .parseError outcome
        = ((400, .defaultErrorPage 400), 0) ∧
      send_photo_route df .badContentType outcome
        = ((415, .defaultErrorPage 415), 0) ∧
      send_document_route df .parseError outcome
        = ((400, .defaultErrorPage 400), 0) ∧
      send_document_route df .badContentType outcome
        = ((415, .defaultErrorPage 415), 0)) :=
  ⟨⟨rfl, rfl, rfl, rfl, rfl, rfl⟩, ⟨rfl, rfl, rfl, rfl, rfl, rfl⟩⟩

/-- Counterexample to C6 as stated: an unparseable body is rejected by
request.json before the handler runs, so the response is Flask's
default 400 error page - no JSON envelope at all, hence not the
message "No data provided". -/
theorem C6_counterexample :
    send_message_route none .parseError (.transportFail "r")
      = ((400, RouteBody.defaultErrorPage 400), 0) ∧
    ∀ v : Json, RouteBody.defaultErrorPage 400 ≠ RouteBody.jsonBody v :=
  ⟨rfl, fun _ h => RouteBody.noConfusion h⟩

/-- Claim C7: for each send operation, a body passing field validation
with no bot_token key, combined with an unset process-wide default,
gets a 400 with the fixed no-credential message and no outbound call
(the forwarder is not invoked). -/
theorem C7_no_credential (outcome : ProviderHttp)
    (d : List (String × Json))
    (hd : d.isEmpty = false)
    (hchat : (getKey d "chat_id").isNone = false)
    (hbt : getKey d "bot_token" = none) :
    ((getKey d "text").isNone = false →
      send_message none (some d) outcome = ((400, errObj noTokenMsg), 0)) ∧
    ((getKey d "photo").isNone = false →
      send_photo none (some d) outcome = ((400, errObj noTokenMsg), 0)) ∧
    ((getKey d "document").isNone = false →
      send_document none (some d) outcome
        = ((400, errObj noTokenMsg), 0)) := by
  have hr : resolveToken d none = none := by simp [resolveToken, hbt]
  refine ⟨fun h1 => ?_, fun h2 => ?_, fun h3 => ?_⟩
  · simp [send_message, send_message_step, runStep, hd, hchat, h1, hr]
  · simp [send_photo, send_photo_step, runStep, hd, hchat, h2, hr]
  · simp [send_document, send_document_step, runStep, hd, hchat, h3, hr]

/-- Witness for C7: a valid sendMessage body without bot_token and no
default token yields the no-credential 400 with zero outbound calls. -/
theorem C7_witness :
    send_message none
      (some [("chat_id", Json.str "1"), ("text", Json.str "hi")])
      (.transportFail "r")
      = ((400, errObj noTokenMsg), 0) :=
  (C7_no_credential (.transportFail "r")
    [("chat_id", Json.str "1"), ("text", Json.str "hi")]
    rfl rfl rfl).1 rfl

/-- Claim C8: for every send operation, a transport-level failure of the
outbound call (no HTTP response available) makes the forwarder produce
an error with no status code and a message naming the failure reason,
and the handler responds 500 with that message after exactly one
outbound call. -/
theorem C8_transport_failure (df : Option String)
    (d : List (String × Json)) (reason : String)
    (hd : d.isEmpty = false)
    (hchat : (getKey d "chat_id").isNone = false)
    (htok : pyTruthyOpt (resolveToken d df) = true) :
    (∀ method token params,
      send_telegram_request method token params (.transportFail reason)
        = .error none (transportFailMsg reason)) ∧
    ((getKey d "text").isNone = false →
      send_message df (some d) (.transportFail reason)
        = ((500, errObj (transportFailMsg reason)), 1)) ∧
    ((getKey d "photo").isNone = false →
      send_photo df (some d) (.transportFail reason)
        = ((500, errObj (transportFailMsg reason)), 1)) ∧
    ((getKey d "document").isNone = false →
      send_document df (some d) (.transportFail reason)
        = ((500, errObj (transportFailMsg reason)), 1)) := by
  obtain ⟨v, hr, hv⟩ := resolveToken_of_truthy d df htok
  refine ⟨fun m t ps => rfl, fun h1 => ?_, fun h2 => ?_, fun h3 => ?_⟩
  · simp only [send_message]
    rw [send_message_step_eq_dispatch df d v hd hchat h1 hr hv]
    exact runStep_transport _ _ _ _
  · simp only [send_photo]
    rw [send_photo_step_eq_dispatch df d v hd hchat h2 hr hv]
    exact runStep_transport _ _ _ _
  · simp only [send_document]
    rw [send_document_step_eq_dispatch df d v hd hchat h3 hr hv]
    exact runStep_transport _ _ _ _

/-- Witness for C8: a timeout during a valid sendMessage yields a 500
with the wrapped failure description after exactly one outbound call. -/
theorem C8_witness :
    send_message (some "E")
      (some [("chat_id", Json.str "1"), ("text", Json.str "hi")])
      (.transportFail "Read timed out")
      = ((500, errObj (transportFailMsg "Read timed out")), 1) :=
  (C8_transport_failure (some "E")
    [("chat_id", Json.str "1"), ("text", Json.str "hi")]
    "Read timed out" rfl rfl rfl).2.1 rfl

/-- Claim C9 amended: any request reaching the forwarder call on any of
the three operations carries a truthy credential (non-empty whenever it
is a string), and the dispatched parameters never contain the bot_token
key.  The original claim further asserts the credential is always a
string, which the code does not enforce. -/
theorem C9_dispatch_invariant (df : Option String)
    (data : Option (List (String × Json))) (method : String)
    (token : Json) (params : List (String × Json)) :
    (send_message_step df data = Step.dispatch method token params →
      truthy token = true ∧ getKey params "bot_token" = none ∧
      ∀ s, token = Json.str s → s ≠ "") ∧
    (send_photo_step df data = Step.dispatch method token params →
      truthy token = true ∧ getKey params "bot_token" = none ∧
      ∀ s, token = Json.str s → s ≠ "") ∧
    (send_document_step df data = Step.dispatch method token params →
      truthy token = true ∧ getKey params "bot_token" = none ∧
      ∀ s, token = Json.str s → s ≠ "") := by
  refine ⟨fun h => ?_, fun h => ?_, fun h => ?_⟩
  · cases data with
    | none => exact Step.noConfusion h
    | some d =>
        simp only [send_message_step] at h
        split at h
        · exact Step.noConfusion h
        · split at h
          · exact Step.noConfusion h
          · split at h
            · exact Step.noConfusion h
            · split at h
              · exact Step.noConfusion h
              · rename_i bot_token hr
                split at h
                · rename_i hv
                  injection h with hm ht hp
                  subst ht
                  subst hp
                  exact ⟨hv, getKey_removeKey_self d _,
                    fun s hs => by rw [hs] at hv; simpa [truthy] using hv⟩
                · exact Step.noConfusion h
  · cases data with
    | none => exact Step.noConfusion h
    | some d =>
        simp only [send_photo_step] at h
        split at h
        · exact Step.noConfusion h
        · split at h
          · exact Step.noConfusion h
          · split at h
            · exact Step.noConfusion h
            · split at h
              · exact Step.noConfusion h
              · rename_i bot_token hr
                split at h
                · rename_i hv
                  injection h with hm ht hp
                  subst ht
                  subst hp
                  exact ⟨hv, getKey_removeKey_self d _,
                    fun s hs => by rw [hs] at hv; simpa [truthy] using hv⟩
                · exact Step.noConfusion h
  · cases data with
    | none => exact Step.noConfusion h
    | some d =>
        simp only [send_document_step] at h
        split at h
        · exact Step.noConfusion h
        · split at h
          · exact Step.noConfusion h
          · split at h
            · exact Step.noConfusion h
            · split at h
              · exact Step.noConfusion h
              · rename_i bot_token hr
                split at h
                · rename_i hv
                  injection h with hm ht hp
                  subst ht
                  subst hp
                  exact ⟨hv, getKey_removeKey_self d _,
                    fun s hs => by rw [hs] at hv; simpa [truthy] using hv⟩
                · exact Step.noConfusion h

/-- Witness for the amended C9 at a concrete dispatch: the credential is
truthy and the parameters lack the bot_token key. -/
theorem C9_witness :
    truthy (Json.str "T") = true ∧
    getKey [("chat_id", Json.str "1"), ("text", Json.str "hi")]
        "bot_token" = none ∧
    (∀ s, Json.str "T" = Json.str s → s ≠ "") :=
  (C9_dispatch_invariant none
    (some [("chat_id", Json.str "1"), ("text", Json.str "hi"),
      ("bot_token", Json.str "T")])
    "sendMessage" (Json.str "T")
    [("chat_id", Json.str "1"), ("text", Json.str "hi")]).1 rfl

/-- Counterexample to C9 as stated: a body whose bot_token is the JSON
number 123 reaches the forwarder with that non-string credential, so
the credential at dispatch is not always a non-empty string. -/
theorem C9_counterexample :
    send_message_step (some "ENV")
      (some [("chat_id", Json.str "1"), ("text", Json.str "hi"),
        ("bot_token", Json.num 123)])
      = Step.dispatch "sendMessage" (Json.num 123)
          [("chat_id", Json.str "1"), ("text", Json.str "hi")] ∧
    ∀ s : String, Json.num 123 ≠ Json.str s :=
  ⟨rfl, fun _ h => Json.noConfusion h⟩

/-- Claim C10: for each send operation, a body whose bot_token key is
present but falsy (e.g. the empty string) gets the no-credential 400
even when a process-wide default credential is configured: the body
value is what the emptiness check sees, and the default never
substitutes for it. -/
theorem C10_falsy_body_token (df : Option String)
    (outcome : ProviderHttp) (d : List (String × Json)) (v : Json)
    (hd : d.isEmpty = false)
    (hchat : (getKey d "chat_id").isNone = false)
    (hbt : getKey d "bot_token" = some v) (hv : truthy v = false) :
    ((getKey d "text").isNone = false →
      send_message df (some d) outcome = ((400, errObj noTokenMsg), 0)) ∧
    ((getKey d "photo").isNone = false →
      send_photo df (some d) outcome = ((400, errObj noTokenMsg), 0)) ∧
    ((getKey d "document").isNone = false →
      send_document df (some d) outcome
        = ((400, errObj noTokenMsg), 0)) := by
  have hr : resolveToken d df = some v := by simp [resolveToken, hbt]
  refine ⟨fun h1 => ?_, fun h2 => ?_, fun h3 => ?_⟩
  · simp [send_message, send_message_step, runStep, hd, hchat, h1, hr, hv]
  · simp [send_photo, send_photo_step, runStep, hd, hchat, h2, hr, hv]
  · simp [send_document, send_document_step, runStep, hd, hchat, h3, hr, hv]

/-- Witness for C10: sendPhoto with an empty-string bot_token in the
body gets the no-credential 400 although a default token is set. -/
theorem C10_witness :
    send_photo (some "ENV")
      (some [("chat_id", Json.str "1"), ("photo", Json.str "u"),
        ("bot_token", Json.str "")])
      (.transportFail "r")
      = ((400, errObj noTokenMsg), 0) :=
  (C10_falsy_body_token (some "ENV") (.transportFail "r")
    [("chat_id", Json.str "1"), ("photo", Json.str "u"),
      ("bot_token", Json.str "")]
    (Json.str "") rfl rfl rfl rfl).2.1 rfl
